import Mathlib

/-!
Shallow embedding of the upload reconciler of the Vue + Supabase + PowerSync
to-do list template (`src/library/SupabaseConnector.ts` as given in the
tutorial source).  The component in scope is `SupabaseConnector.uploadData`
(the upload reconciler), the fatal-response-code classifier
`FATAL_RESPONSE_CODES`, and `SupabaseConnector.init` / `updateSession`.

The Remote Relational Backend is modelled as a response oracle
`resp : Nat → Option Fault` giving, for the i-th crud entry of the batch,
either success (`none`) or a structured fault.  The Local Reactive Store is
modelled by the optional pending transaction passed in, and the run records
the full trace: which requests were dispatched, how many times
`transaction.complete()` was called, and whether the call returned normally
or raised an exception.
-/

/-- A structured backend fault: `{ code, message }` as returned in
`result.error` by the supabase client. -/
structure Fault where
  code : String
  message : String
  deriving DecidableEq, Repr

/-- A JavaScript exception as observed by the `catch (ex: any)` block:
it has a message, and it may or may not carry a string `code` property
(`typeof ex.code == "string"` distinguishes the two). -/
structure Exn where
  message : String
  code : Option String
  deriving DecidableEq, Repr

/-- One entry of the crud transaction (`CrudEntry`): target table, operation
kind (`op.op`, a string tag: `UpdateType.PUT = "PUT"` etc.), row id, and the
payload `opData` as an association list of column/value pairs. -/
structure CrudEntry where
  table : String
  op : String
  id : String
  opData : List (String × String)
  deriving DecidableEq, Repr

/-- The shape of one request dispatched to the backend, mirroring the three
branches of the `switch (op.op)` in `uploadData`. -/
inductive DispatchKind where
  /-- `table.upsert(record)` with `record = { ...op.opData, id: op.id }`. -/
  | upsert (record : List (String × String))
  /-- `table.update(op.opData).eq("id", op.id)`. -/
  | update (payload : List (String × String)) (id : String)
  /-- `table.delete().eq("id", op.id)`. -/
  | delete (id : String)
  deriving DecidableEq, Repr

/-- A dispatched backend request: the collection it targets and its kind. -/
structure Request where
  table : String
  kind : DispatchKind
  deriving DecidableEq, Repr

/-- JS regexp `.` : any character except a line terminator. -/
def jsDot (c : Char) : Bool :=
  c != '\n' && c != '\r' && c != '\u2028' && c != '\u2029'

/-- `new RegExp("^22...$")` — Class 22, Data Exception. -/
def matchClass22 (s : String) : Bool :=
  match s.data with
  | [a, b, x, y, z] => a == '2' && b == '2' && jsDot x && jsDot y && jsDot z
  | _ => false

/-- `new RegExp("^23...$")` — Class 23, Integrity Constraint Violation. -/
def matchClass23 (s : String) : Bool :=
  match s.data with
  | [a, b, x, y, z] => a == '2' && b == '3' && jsDot x && jsDot y && jsDot z
  | _ => false

/-- `new RegExp("^42501$")` — insufficient privilege. -/
def match42501 (s : String) : Bool :=
  s == "42501"

/-- Postgres response codes that the connector cannot recover from by
retrying, as the ordered pattern list `FATAL_RESPONSE_CODES`. -/
def FATAL_RESPONSE_CODES : List (String → Bool) :=
  [matchClass22, matchClass23, match42501]

/-- Classification of a fault code:
`FATAL_RESPONSE_CODES.some((regex) => regex.test(code))`. -/
def isFatalCode (code : String) : Bool :=
  FATAL_RESPONSE_CODES.any fun regex => regex code

/-- The guard of the catch block:
`typeof ex.code == "string" && FATAL_RESPONSE_CODES.some((regex) => regex.test(ex.code))`. -/
def isFatalExn (ex : Exn) : Bool :=
  match ex.code with
  | some c => isFatalCode c
  | none => false

/-- The exception thrown when `result.error` is set:
`new Error("Could not update Supabase. Received error: " + message)`.
A plain `Error` carries no `code` property. -/
def wrapFaultExn (f : Fault) : Exn :=
  { message := "Could not update Supabase. Received error: " ++ f.message
    code := none }

/-- The `TypeError` raised when `op.op` matches no case of the switch:
`result` stays `undefined` and `result.error` cannot be read.  A
`TypeError` carries no string `code` property. -/
def resultUndefinedExn : Exn :=
  { message := "Cannot read properties of undefined (reading error)"
    code := none }

/-- The request built for one crud entry by the `switch (op.op)` in
`uploadData`; `none` when no case matches, in which case `result` is left
`undefined`. -/
def buildRequest (op : CrudEntry) : Option Request :=
  match op.op with
  | "PUT" => some { table := op.table, kind := .upsert (op.opData ++ [("id", op.id)]) }
  | "PATCH" => some { table := op.table, kind := .update op.opData op.id }
  | "DELETE" => some { table := op.table, kind := .delete op.id }
  | _ => none

/-- The loop `for (const op of transaction.crud)` starting at crud index `i`:
returns the requests dispatched (in order) and either normal termination or
the first exception raised.  A crud entry with an unmatched op kind
dispatches nothing and raises; an entry whose response is a fault is
dispatched and then raises the wrapped error. -/
def processOps (resp : Nat → Option Fault) : List CrudEntry → Nat → List Request × Except Exn Unit
  | [], _ => ([], Except.ok ())
  | op :: rest, i =>
    match buildRequest op with
    | none => ([], Except.error resultUndefinedExn)
    | some req =>
      match resp i with
      | some f => ([req], Except.error (wrapFaultExn f))
      | none =>
        let (ds, out) := processOps resp rest (i + 1)
        (req :: ds, out)

instance : DecidableEq (Except Exn Unit) := fun a b =>
  match a, b with
  | Except.ok (), Except.ok () => isTrue rfl
  | Except.ok (), Except.error _ => isFalse fun h => Except.noConfusion h
  | Except.error _, Except.ok () => isFalse fun h => Except.noConfusion h
  | Except.error e, Except.error f =>
    decidable_of_iff (e = f) ⟨by rintro rfl; rfl, fun h => by injection h⟩

/-- Trace of one `uploadData` invocation: the requests dispatched in order,
the number of `transaction.complete()` calls, and the outcome (normal
return, or the exception propagated to the caller). -/
structure RunResult where
  dispatched : List Request
  completions : Nat
  outcome : Except Exn Unit
  deriving DecidableEq, Repr

/-- `SupabaseConnector.uploadData`.  `transaction` is the result of
`database.getNextCrudTransaction()` (the pending batch, if any); `resp`
gives the backend response for each crud entry.  Mirrors the try/catch:
on normal loop exit the batch is completed; a caught exception with a
fatal string code completes the batch and returns; any other exception is
rethrown with the batch left pending. -/
def uploadData (resp : Nat → Option Fault) (transaction : Option (List CrudEntry)) : RunResult :=
  match transaction with
  | none => { dispatched := [], completions := 0, outcome := Except.ok () }
  | some crud =>
    let (ds, out) := processOps resp crud 0
    match out with
    | Except.ok () => { dispatched := ds, completions := 1, outcome := Except.ok () }
    | Except.error ex =>
      if isFatalExn ex then
        { dispatched := ds, completions := 1, outcome := Except.ok () }
      else
        { dispatched := ds, completions := 0, outcome := Except.error ex }

/-- The requests a list of crud entries gives rise to, in order. -/
def reqList (ops : List CrudEntry) : List Request :=
  ops.filterMap buildRequest

/-- An auth session, kept abstract (only its presence matters to the
connector logic). -/
abbrev Session := String

/-- The mutable fields of a `SupabaseConnector`: `ready` and
`currentSession`.  The constructor sets `currentSession = null` and
`ready = false`. -/
structure ConnectorState where
  ready : Bool
  currentSession : Option Session
  deriving DecidableEq, Repr

/-- The state a fresh `SupabaseConnector` is constructed in. -/
def newConnector : ConnectorState :=
  { ready := false, currentSession := none }

/-- `updateSession(session)`: store the session on the connector and, when
it is non-null, fire the `sessionStarted` listeners once.  Returns the new
state and the number of `sessionStarted` events fired. -/
def updateSession (s : ConnectorState) (session : Option Session) : ConnectorState × Nat :=
  let s1 := { s with currentSession := session }
  match session with
  | none => (s1, 0)
  | some _ => (s1, 1)

/-- Trace of one `SupabaseConnector.init()` call: the resulting state, how
many times `client.auth.getSession()` was called, how many `initialized`
events were fired, and how many `sessionStarted` events were fired. -/
structure InitResult where
  state : ConnectorState
  sessionFetches : Nat
  initEvents : Nat
  sessionStartedEvents : Nat
  deriving DecidableEq, Repr

/-- `SupabaseConnector.init()`: when `ready` is already set it returns at
once; otherwise it fetches the session (`getSession` yielding
`fetched`), runs `updateSession`, sets `ready`, and fires the
`initialized` listeners once. -/
def init (fetched : Option Session) (s : ConnectorState) : InitResult :=
  if s.ready then
    { state := s, sessionFetches := 0, initEvents := 0, sessionStartedEvents := 0 }
  else
    let (s1, started) := updateSession s fetched
    { state := { s1 with ready := true }
      sessionFetches := 1
      initEvents := 1
      sessionStartedEvents := started }

/-- A sequence of `init()` calls (each with the session `getSession` would
yield at that moment), returning the final state and the total number of
`initialized` events fired across the whole sequence. -/
def runInits : List (Option Session) → ConnectorState → ConnectorState × Nat
  | [], s => (s, 0)
  | f :: rest, s =>
    ((runInits rest (init f s).state).1,
      (init f s).initEvents + (runInits rest (init f s).state).2)

/-! ## Concrete batches and responses used to exercise the model -/

/-- A two-mutation batch whose dispatches all succeed. -/
def okBatch : List CrudEntry :=
  [{ table := "todos", op := "PUT", id := "a1", opData := [("description", "one")] },
   { table := "todos", op := "DELETE", id := "a2", opData := [] }]

/-- A backend that accepts every request. -/
def okResp : Nat → Option Fault := fun _ => none

/-- A connection-failure fault: code `08006` matches no fatal pattern. -/
def transientFault : Fault := { code := "08006", message := "connection failure" }

/-- A backend answering every request with the connection-failure fault. -/
def transientResp : Nat → Option Fault := fun _ => some transientFault

/-- A one-mutation batch. -/
def oneOpBatch : List CrudEntry :=
  [{ table := "todos", op := "PUT", id := "b1", opData := [("completed", "1")] }]

/-- A unique-violation fault: code `23505` matches the Class 23 fatal
pattern. -/
def dupFault : Fault := { code := "23505", message := "duplicate key value" }

/-- A backend answering every request with the unique-violation fault. -/
def dupResp : Nat → Option Fault := fun _ => some dupFault

/-- A one-mutation batch for the unique-violation scenario. -/
def dupBatch : List CrudEntry :=
  [{ table := "todos", op := "PUT", id := "c1", opData := [("description", "again")] }]

/-- A batch whose single entry carries an op kind the switch does not
handle. -/
def unknownOpBatch : List CrudEntry :=
  [{ table := "todos", op := "MOVE", id := "d1", opData := [] }]

/-! ## Helper lemmas -/

theorem reqList_nil : reqList [] = [] := rfl

theorem reqList_cons_some (op : CrudEntry) (rest : List CrudEntry) (req : Request)
    (h : buildRequest op = some req) :
    reqList (op :: rest) = req :: reqList rest := by
  simp [reqList, List.filterMap_cons, h]

theorem reqList_length (ops : List CrudEntry)
    (hdisp : ∀ op ∈ ops, (buildRequest op).isSome) :
    (reqList ops).length = ops.length := by
  induction ops with
  | nil => rfl
  | cons op rest ih =>
    obtain ⟨req, hreq⟩ := Option.isSome_iff_exists.mp (hdisp op (by simp))
    rw [reqList_cons_some op rest req hreq]
    simp only [List.length_cons]
    rw [ih fun o ho => hdisp o (by simp [ho])]

theorem processOps_success (resp : Nat → Option Fault) (ops : List CrudEntry) (i : Nat)
    (hdisp : ∀ op ∈ ops, (buildRequest op).isSome)
    (hsucc : ∀ j, j < ops.length → resp (i + j) = none) :
    processOps resp ops i = (reqList ops, Except.ok ()) := by
  induction ops generalizing i with
  | nil => rfl
  | cons op rest ih =>
    obtain ⟨req, hreq⟩ := Option.isSome_iff_exists.mp (hdisp op (by simp))
    have h0 : resp i = none := by simpa using hsucc 0 (by simp)
    have hrest : processOps resp rest (i + 1) = (reqList rest, Except.ok ()) := by
      refine ih (i + 1) (fun o ho => hdisp o (List.mem_cons_of_mem op ho)) (fun j hj => ?_)
      have hj1 : j + 1 < (op :: rest).length := by simpa using Nat.succ_lt_succ hj
      have := hsucc (j + 1) hj1
      have harith : i + (j + 1) = i + 1 + j := by omega
      rwa [harith] at this
    simp [processOps, hreq, h0, hrest, reqList_cons_some op rest req hreq]

theorem processOps_fault (resp : Nat → Option Fault) (ops : List CrudEntry) (i k : Nat)
    (f : Fault)
    (hk : k < ops.length)
    (hdisp : ∀ op ∈ ops.take (k + 1), (buildRequest op).isSome)
    (hsucc : ∀ j, j < k → resp (i + j) = none)
    (hf : resp (i + k) = some f) :
    processOps resp ops i = (reqList (ops.take (k + 1)), Except.error (wrapFaultExn f)) := by
  induction ops generalizing i k with
  | nil => simp at hk
  | cons op rest ih =>
    obtain ⟨req, hreq⟩ := Option.isSome_iff_exists.mp (hdisp op (by simp))
    cases k with
    | zero =>
      have hf0 : resp i = some f := by simpa using hf
      simp [processOps, hreq, hf0, List.take_succ_cons, reqList_cons_some op _ req hreq,
        reqList_nil]
    | succ k1 =>
      have h0 : resp i = none := by simpa using hsucc 0 (by omega)
      have hrest : processOps resp rest (i + 1)
          = (reqList (rest.take (k1 + 1)), Except.error (wrapFaultExn f)) := by
        refine ih (i + 1) k1 (by simpa using Nat.lt_of_succ_lt_succ hk)
          (fun o ho => hdisp o (by simp [List.take_succ_cons, ho])) (fun j hj => ?_) ?_
        · have := hsucc (j + 1) (by omega)
          have harith : i + (j + 1) = i + 1 + j := by omega
          rwa [harith] at this
        · have harith : i + (k1 + 1) = i + 1 + k1 := by omega
          rwa [harith] at hf
      simp [processOps, hreq, h0, hrest, List.take_succ_cons,
        reqList_cons_some op _ req hreq]

theorem processOps_unmatched (resp : Nat → Option Fault) (ops : List CrudEntry) (i k : Nat)
    (hk : k < ops.length)
    (hdisp : ∀ op ∈ ops.take k, (buildRequest op).isSome)
    (hnone : buildRequest (ops.get ⟨k, hk⟩) = none)
    (hsucc : ∀ j, j < k → resp (i + j) = none) :
    processOps resp ops i = (reqList (ops.take k), Except.error resultUndefinedExn) := by
  induction ops generalizing i k with
  | nil => simp at hk
  | cons op rest ih =>
    cases k with
    | zero =>
      have h0 : buildRequest op = none := hnone
      simp [processOps, h0, reqList_nil]
    | succ k1 =>
      obtain ⟨req, hreq⟩ := Option.isSome_iff_exists.mp
        (hdisp op (by simp [List.take_succ_cons]))
      have h0 : resp i = none := by simpa using hsucc 0 (by omega)
      have hk1 : k1 < rest.length := by simpa using Nat.lt_of_succ_lt_succ hk
      have hrest : processOps resp rest (i + 1)
          = (reqList (rest.take k1), Except.error resultUndefinedExn) := by
        refine ih (i + 1) k1 hk1
          (fun o ho => hdisp o (by simp [List.take_succ_cons, ho])) ?_ (fun j hj => ?_)
        · simpa using hnone
        · have := hsucc (j + 1) (by omega)
          have harith : i + (j + 1) = i + 1 + j := by omega
          rwa [harith] at this
      simp [processOps, hreq, h0, hrest, List.take_succ_cons,
        reqList_cons_some op _ req hreq]

theorem init_ready_state (f : Option Session) (s : ConnectorState) :
    (init f s).state.ready = true := by
  by_cases h : s.ready
  · simp [init, h]
  · cases f <;> simp [init, h, updateSession]

theorem runInits_ready (fs : List (Option Session)) (s : ConnectorState)
    (h : s.ready = true) :
    (runInits fs s).2 = 0 := by
  induction fs generalizing s with
  | nil => rfl
  | cons f rest ih =>
    have h1 : init f s
        = { state := s, sessionFetches := 0, initEvents := 0, sessionStartedEvents := 0 } := by
      simp [init, h]
    simp [runInits, h1, ih s h]

theorem runInits_le_one (fs : List (Option Session)) (s : ConnectorState) :
    (runInits fs s).2 ≤ 1 := by
  cases fs with
  | nil => simp [runInits]
  | cons f rest =>
    have h2 : (runInits rest (init f s).state).2 = 0 :=
      runInits_ready rest _ (init_ready_state f s)
    have h3 : (init f s).initEvents ≤ 1 := by
      by_cases h : s.ready
      · simp [init, h]
      · cases f <;> simp [init, h, updateSession]
    simpa [runInits, h2] using h3

/-! ## Claim theorems -/

/-- C6: when the Local Reactive Store has no pending batch
(`getNextCrudTransaction()` returns null), `uploadData` returns immediately
without dispatching any mutation, writing any completion marker, or raising
any error. -/
theorem uploadData_no_pending_batch (resp : Nat → Option Fault) :
    uploadData resp none = { dispatched := [], completions := 0, outcome := Except.ok () } :=
  rfl

/-- C5: for every pending batch in which every mutation's dispatch succeeds,
`uploadData` dispatches each mutation exactly once, in the batch's original
order (the dispatched trace is exactly the per-entry request list, one
request per entry), and then marks the batch complete and returns
normally. -/
theorem uploadData_all_success (resp : Nat → Option Fault) (ops : List CrudEntry)
    (hdisp : ∀ op ∈ ops, (buildRequest op).isSome)
    (hsucc : ∀ j, j < ops.length → resp j = none) :
    (uploadData resp (some ops)).dispatched = reqList ops ∧
    (uploadData resp (some ops)).dispatched.length = ops.length ∧
    (uploadData resp (some ops)).completions = 1 ∧
    (uploadData resp (some ops)).outcome = Except.ok () := by
  have hpo : processOps resp ops 0 = (reqList ops, Except.ok ()) :=
    processOps_success resp ops 0 hdisp (fun j hj => by simpa using hsucc j hj)
  have h1 : uploadData resp (some ops)
      = { dispatched := reqList ops, completions := 1, outcome := Except.ok () } := by
    simp [uploadData, hpo]
  rw [h1]
  exact ⟨rfl, reqList_length ops hdisp, rfl, rfl⟩

theorem uploadData_all_success_witness :
    (∀ op ∈ okBatch, (buildRequest op).isSome) ∧
    (∀ j, j < okBatch.length → okResp j = none) ∧
    ((uploadData okResp (some okBatch)).dispatched = reqList okBatch ∧
     (uploadData okResp (some okBatch)).dispatched.length = okBatch.length ∧
     (uploadData okResp (some okBatch)).completions = 1 ∧
     (uploadData okResp (some okBatch)).outcome = Except.ok ()) :=
  ⟨by decide, fun _ _ => rfl,
    uploadData_all_success okResp okBatch (by decide) (fun _ _ => rfl)⟩

/-- C2: for every pending batch in which mutation `k` (0-indexed) is the
first to receive a Fault classified as transient, `uploadData` dispatches
mutations `0..k` (and only those), does not mark the batch complete, and
raises the error to the caller so the invocation can be retried later. -/
theorem uploadData_transient_fault (resp : Nat → Option Fault) (ops : List CrudEntry)
    (k : Nat) (f : Fault)
    (hk : k < ops.length)
    (hdisp : ∀ op ∈ ops.take (k + 1), (buildRequest op).isSome)
    (hsucc : ∀ j, j < k → resp j = none)
    (hf : resp k = some f)
    (htrans : isFatalCode f.code = false) :
    (uploadData resp (some ops)).dispatched = reqList (ops.take (k + 1)) ∧
    (uploadData resp (some ops)).dispatched.length = k + 1 ∧
    (uploadData resp (some ops)).completions = 0 ∧
    (uploadData resp (some ops)).outcome = Except.error (wrapFaultExn f) := by
  have hpo : processOps resp ops 0
      = (reqList (ops.take (k + 1)), Except.error (wrapFaultExn f)) :=
    processOps_fault resp ops 0 k f hk hdisp
      (fun j hj => by simpa using hsucc j hj) (by simpa using hf)
  have hiso : isFatalExn (wrapFaultExn f) = false := rfl
  have h1 : uploadData resp (some ops)
      = { dispatched := reqList (ops.take (k + 1)), completions := 0,
          outcome := Except.error (wrapFaultExn f) } := by
    simp [uploadData, hpo, hiso]
  have hlen : (reqList (ops.take (k + 1))).length = k + 1 := by
    rw [reqList_length _ hdisp, List.length_take]
    omega
  rw [h1]
  exact ⟨rfl, hlen, rfl, rfl⟩

theorem uploadData_transient_fault_witness :
    0 < oneOpBatch.length ∧
    (∀ op ∈ oneOpBatch.take 1, (buildRequest op).isSome) ∧
    isFatalCode transientFault.code = false ∧
    ((uploadData transientResp (some oneOpBatch)).dispatched = reqList (oneOpBatch.take 1) ∧
     (uploadData transientResp (some oneOpBatch)).dispatched.length = 1 ∧
     (uploadData transientResp (some oneOpBatch)).completions = 0 ∧
     (uploadData transientResp (some oneOpBatch)).outcome
       = Except.error (wrapFaultExn transientFault)) :=
  ⟨by decide, by decide, by decide,
    uploadData_transient_fault transientResp oneOpBatch 0 transientFault
      (by decide) (by decide) (fun j hj => absurd hj (Nat.not_lt_zero j)) rfl (by decide)⟩

/-- C3: for every pending batch and every sequence of backend responses,
after `uploadData` returns (normally or by raising), exactly one of the
following holds: the batch was marked complete exactly once (and the call
returned normally), or the batch is left pending with no completion marker
written (and an exception propagated) — never a partial completion. -/
theorem uploadData_batch_atomic (resp : Nat → Option Fault) (ops : List CrudEntry) :
    ((uploadData resp (some ops)).completions = 1 ∧
      (uploadData resp (some ops)).outcome = Except.ok ())
    ∨ ((uploadData resp (some ops)).completions = 0 ∧
      ∃ ex, (uploadData resp (some ops)).outcome = Except.error ex) := by
  rcases hpo : processOps resp ops 0 with ⟨ds, out⟩
  cases out with
  | ok u =>
    cases u
    left
    constructor <;> simp [uploadData, hpo]
  | error ex =>
    cases hfe : isFatalExn ex with
    | true =>
      left
      constructor <;> simp [uploadData, hpo, hfe]
    | false =>
      right
      refine ⟨?_, ex, ?_⟩ <;> simp [uploadData, hpo, hfe]

/-- C7: `uploadData` dispatches each mutation according to its operation
kind: a `PUT` (create-or-replace) is sent as an upsert of the record built
from the payload plus the row id; a `PATCH` (partial-update) is sent as an
update of only the payload's columns filtered to the row with that id; a
`DELETE` is sent as a delete filtered to the row with that id. -/
theorem uploadData_dispatch_shape (t rid : String) (pd : List (String × String))
    (resp : Nat → Option Fault) :
    (uploadData resp (some [{ table := t, op := "PUT", id := rid, opData := pd }])).dispatched
      = [{ table := t, kind := .upsert (pd ++ [("id", rid)]) }] ∧
    (uploadData resp (some [{ table := t, op := "PATCH", id := rid, opData := pd }])).dispatched
      = [{ table := t, kind := .update pd rid }] ∧
    (uploadData resp (some [{ table := t, op := "DELETE", id := rid, opData := pd }])).dispatched
      = [{ table := t, kind := .delete rid }] ∧
    buildRequest { table := t, op := "PUT", id := rid, opData := pd }
      = some { table := t, kind := .upsert (pd ++ [("id", rid)]) } ∧
    buildRequest { table := t, op := "PATCH", id := rid, opData := pd }
      = some { table := t, kind := .update pd rid } ∧
    buildRequest { table := t, op := "DELETE", id := rid, opData := pd }
      = some { table := t, kind := .delete rid } := by
  cases h : resp 0 <;>
    simp [uploadData, processOps, buildRequest, h, isFatalExn, wrapFaultExn]

/-- C8: every backend response carrying a fault (`result.error` set) is
rethrown as a newly constructed `Error` with only a message and no `code`
field; the catch block therefore never classifies it as fatal, so the batch
is left pending and the exception propagates — regardless of the fault code
in the original response. -/
theorem uploadData_error_response_transient (resp : Nat → Option Fault)
    (ops : List CrudEntry) (k : Nat) (f : Fault)
    (hk : k < ops.length)
    (hdisp : ∀ op ∈ ops.take (k + 1), (buildRequest op).isSome)
    (hsucc : ∀ j, j < k → resp j = none)
    (hf : resp k = some f) :
    (wrapFaultExn f).code = none ∧
    isFatalExn (wrapFaultExn f) = false ∧
    (uploadData resp (some ops)).completions = 0 ∧
    (uploadData resp (some ops)).outcome = Except.error (wrapFaultExn f) := by
  have hpo : processOps resp ops 0
      = (reqList (ops.take (k + 1)), Except.error (wrapFaultExn f)) :=
    processOps_fault resp ops 0 k f hk hdisp
      (fun j hj => by simpa using hsucc j hj) (by simpa using hf)
  have h1 : uploadData resp (some ops)
      = { dispatched := reqList (ops.take (k + 1)), completions := 0,
          outcome := Except.error (wrapFaultExn f) } := by
    simp [uploadData, hpo, isFatalExn, wrapFaultExn]
  rw [h1]
  exact ⟨rfl, rfl, rfl, rfl⟩

theorem uploadData_error_response_transient_witness :
    isFatalCode dupFault.code = true ∧
    0 < dupBatch.length ∧
    (∀ op ∈ dupBatch.take 1, (buildRequest op).isSome) ∧
    ((wrapFaultExn dupFault).code = none ∧
     isFatalExn (wrapFaultExn dupFault) = false ∧
     (uploadData dupResp (some dupBatch)).completions = 0 ∧
     (uploadData dupResp (some dupBatch)).outcome = Except.error (wrapFaultExn dupFault)) :=
  ⟨by decide, by decide, by decide,
    uploadData_error_response_transient dupResp dupBatch 0 dupFault
      (by decide) (by decide) (fun j hj => absurd hj (Nat.not_lt_zero j)) rfl⟩

/-- C9: for a mutation whose op kind is none of `PUT`, `PATCH`, `DELETE`,
`uploadData` dispatches nothing for it (only the preceding mutations were
dispatched), raises an exception — `result` stays undefined and reading
`result.error` fails — carrying no string code, does not mark the batch
complete, and so leaves the batch pending as on a transient fault. -/
theorem uploadData_unknown_op (resp : Nat → Option Fault) (ops : List CrudEntry)
    (k : Nat)
    (hk : k < ops.length)
    (hdisp : ∀ op ∈ ops.take k, (buildRequest op).isSome)
    (hnone : buildRequest (ops.get ⟨k, hk⟩) = none)
    (hsucc : ∀ j, j < k → resp j = none) :
    (uploadData resp (some ops)).dispatched = reqList (ops.take k) ∧
    (uploadData resp (some ops)).completions = 0 ∧
    (uploadData resp (some ops)).outcome = Except.error resultUndefinedExn ∧
    resultUndefinedExn.code = none := by
  have hpo : processOps resp ops 0
      = (reqList (ops.take k), Except.error resultUndefinedExn) :=
    processOps_unmatched resp ops 0 k hk hdisp hnone
      (fun j hj => by simpa using hsucc j hj)
  have h1 : uploadData resp (some ops)
      = { dispatched := reqList (ops.take k), completions := 0,
          outcome := Except.error resultUndefinedExn } := by
    simp [uploadData, hpo, isFatalExn, resultUndefinedExn]
  rw [h1]
  exact ⟨rfl, rfl, rfl, rfl⟩

theorem uploadData_unknown_op_witness :
    0 < unknownOpBatch.length ∧
    ((uploadData okResp (some unknownOpBatch)).dispatched = reqList (unknownOpBatch.take 0) ∧
     (uploadData okResp (some unknownOpBatch)).completions = 0 ∧
     (uploadData okResp (some unknownOpBatch)).outcome = Except.error resultUndefinedExn ∧
     resultUndefinedExn.code = none) :=
  ⟨by decide,
    uploadData_unknown_op okResp unknownOpBatch 0 (by decide)
      (by decide) (by decide) (fun j hj => absurd hj (Nat.not_lt_zero j))⟩

/-- C4: fault classification is a function of the fault's code evaluated
against the fixed ordered pattern list `FATAL_RESPONSE_CODES` with first
match winning (for this all-permanent list, the any-match the code computes
coincides with the first-match search) and no match defaulting to
transient; in particular `"23505"` is permanent, `"42501"` is permanent,
`"08006"` is transient, and every code matching no pattern is transient. -/
theorem fatal_code_classification (c cAny : String)
    (hno : ∀ p ∈ FATAL_RESPONSE_CODES, p c = false) :
    isFatalCode "23505" = true ∧
    isFatalCode "42501" = true ∧
    isFatalCode "08006" = false ∧
    isFatalCode c = false ∧
    isFatalCode cAny = (FATAL_RESPONSE_CODES.find? fun p => p cAny).isSome := by
  refine ⟨by decide, by decide, by decide, ?_, ?_⟩
  · have h1 := hno matchClass22 (by simp [FATAL_RESPONSE_CODES])
    have h2 := hno matchClass23 (by simp [FATAL_RESPONSE_CODES])
    have h3 := hno match42501 (by simp [FATAL_RESPONSE_CODES])
    simp [isFatalCode, FATAL_RESPONSE_CODES, h1, h2, h3]
  · cases h1 : matchClass22 cAny <;> cases h2 : matchClass23 cAny <;>
      cases h3 : match42501 cAny <;>
      simp [isFatalCode, FATAL_RESPONSE_CODES, List.find?, h1, h2, h3]

theorem fatal_code_classification_witness :
    (∀ p ∈ FATAL_RESPONSE_CODES, p "08006" = false) ∧
    (isFatalCode "23505" = true ∧
     isFatalCode "42501" = true ∧
     isFatalCode "08006" = false ∧
     isFatalCode "08006" = false ∧
     isFatalCode "23000" = (FATAL_RESPONSE_CODES.find? fun p => p "23000").isSome) :=
  ⟨by decide, fatal_code_classification "08006" "23000" (by decide)⟩

/-- C1: the claim says a permanent-classified fault makes `uploadData`
complete (discard) the batch and return successfully; on the code this
fails, because the fault is rethrown as a plain `Error` whose `code` is
lost.  At the concrete input — a one-`PUT` batch whose backend response is
a fault with code `"23505"` (classified permanent by
`FATAL_RESPONSE_CODES`) — the batch is NOT completed and the exception
propagates to the caller. -/
theorem uploadData_fatal_code_fault_leaves_batch_pending :
    isFatalCode "23505" = true ∧
    (uploadData (fun _ => some { code := "23505", message := "duplicate key" })
        (some [{ table := "todos", op := "PUT", id := "t1",
                 opData := [("description", "buy milk")] }])).completions = 0 ∧
    (uploadData (fun _ => some { code := "23505", message := "duplicate key" })
        (some [{ table := "todos", op := "PUT", id := "t1",
                 opData := [("description", "buy milk")] }])).outcome
      = Except.error (wrapFaultExn { code := "23505", message := "duplicate key" }) := by
  refine ⟨by decide, by decide, by decide⟩

/-- C10: `SupabaseConnector.init` is idempotent once completed: on a
connector whose `ready` flag is true, a further `init` call returns
immediately — no session fetch, no change to `currentSession` or `ready`,
no `initialized` notification — and across any sequence of `init` calls on
a fresh connector the `initialized` event fires at most once. -/
theorem init_idempotent_when_ready (fetched : Option Session) (s : ConnectorState)
    (h : s.ready = true) (fetches : List (Option Session)) :
    init fetched s
      = { state := s, sessionFetches := 0, initEvents := 0, sessionStartedEvents := 0 } ∧
    (runInits fetches newConnector).2 ≤ 1 :=
  ⟨by simp [init, h], runInits_le_one fetches newConnector⟩

theorem init_idempotent_when_ready_witness :
    init none { ready := true, currentSession := none }
      = { state := { ready := true, currentSession := none },
          sessionFetches := 0, initEvents := 0, sessionStartedEvents := 0 } ∧
    (runInits [none, some "sess"] newConnector).2 ≤ 1 :=
  init_idempotent_when_ready none { ready := true, currentSession := none } rfl
    [none, some "sess"]
